import Mathlib

/-!
Verification of the CodementorX frontend chat client.

Shallow embedding of the two logic-bearing source files:
* `src/frontend/src/api/ChatbotClient.js` — HTTP transport wrapper
  (client-side validation, sliding-window rate limiter, axios request /
  response interceptors with retry and backoff, error classification);
* `src/frontend/src/context/ChatContext.jsx` — the chat state reducer
  and the `sendMessage` / `checkServiceStatus` orchestration around it.

JavaScript strings are modelled as Lean `String`s, but every string
operation the source uses (`.length`, `.trim()`, `.slice()`, truthiness)
is defined below over the underlying character list, matching JS
semantics (length counts characters, `trim` strips leading/trailing
whitespace).  JS timestamps (`Date.now()`) are integers passed in
explicitly; ISO timestamp strings (`new Date().toISOString()`) are
opaque strings passed in explicitly, so the clock reads of the source
become explicit parameters of the embedded functions.
-/

set_option maxRecDepth 10000

namespace CodementorX

/-! ### JavaScript string primitives -/

/-- JS whitespace characters relevant to `String.prototype.trim` (the
common ASCII ones; all inputs considered here use these). -/
def jsWhitespace (c : Char) : Bool :=
  c = ' ' || c = '\t' || c = '\n' || c = '\r' || c = '\x0b' || c = '\x0c'

/-- `String.prototype.trim` on the character list: drop whitespace from
both ends. -/
def jsTrim (l : List Char) : List Char :=
  ((l.dropWhile jsWhitespace).reverse.dropWhile jsWhitespace).reverse

/-- `content.trim()` as a string-to-string operation. -/
def jsTrimStr (s : String) : String := String.mk (jsTrim s.data)

/-- JS `.length` (number of characters). -/
def jsLength (s : String) : Nat := s.data.length

/-- `s === ''`, i.e. the string is falsy in JS. -/
def jsIsEmpty (s : String) : Bool := s.data.isEmpty

/-- `content.slice(0, n)`. -/
def jsSlice (s : String) (n : Nat) : String := String.mk (s.data.take n)

/-- A JS runtime value, as far as `sendMessage`'s input validation
inspects it: a string, or one of the non-string shapes the
`typeof content !== 'string'` check can see. -/
inductive JSValue where
  | jstr (s : String)
  | jnull
  | jundefined
  | jnum (n : Int)
  | jbool (b : Bool)
  | jobject
deriving DecidableEq

/-! ### ChatbotClient.js — error taxonomy and input validation -/

/-- The `ChatbotError.code` values produced by `ChatbotClient.js`. -/
inductive ErrCode where
  | invalidInput
  | messageTooLong
  | rateLimited
  | validationError
  | unauthorized
  | timeoutErr
  | networkError
  | serviceError
  | unknownError
  | invalidResponse
deriving DecidableEq

/-- The two client-side validation rejections raised at the top of
`chatbotAPI.sendMessage` before any network activity. -/
inductive ValidationErr where
  | invalidInput
  | tooLong
deriving DecidableEq

/-- Input validation at the top of `chatbotAPI.sendMessage`
(ChatbotClient.js lines 176-182):
`if (!content || typeof content !== 'string' || content.trim().length === 0)`
throws `INVALID_INPUT`; then `if (content.length > 4000)` throws
`MESSAGE_TOO_LONG`. -/
def validateContent : JSValue → Option ValidationErr
  | .jstr s =>
    if jsIsEmpty s then some .invalidInput
    else if (jsTrim s.data).length = 0 then some .invalidInput
    else if jsLength s > 4000 then some .tooLong
    else none
  | _ => some .invalidInput

/-! ### ChatbotClient.js — rate-limit tracker -/

/-- The module-level `rateLimitTracker` object: an ordered list of
request timestamps (ms) plus the per-minute ceiling (source value 100). -/
structure RateLimitTracker where
  requests : List Int
  maxPerMinute : Nat
deriving DecidableEq

/-- The tracker as initialised in the source: empty list, ceiling 100. -/
def rateLimitTrackerInit : RateLimitTracker := { requests := [], maxPerMinute := 100 }

/-- The pruning step inside `canMakeRequest`:
`this.requests.filter(timestamp => timestamp > oneMinuteAgo)` where
`oneMinuteAgo = now - 60000`. -/
def pruneWindow (now : Int) (reqs : List Int) : List Int :=
  reqs.filter (fun ts => decide (now - 60000 < ts))

/-- `rateLimitTracker.canMakeRequest()`: prunes the stored list in place
and reports whether its length is below the ceiling.  Returns the
boolean together with the mutated tracker. -/
def canMakeRequest (now : Int) (t : RateLimitTracker) : Bool × RateLimitTracker :=
  let pruned := pruneWindow now t.requests
  (decide (pruned.length < t.maxPerMinute), { t with requests := pruned })

/-- `rateLimitTracker.recordRequest()`: push the current timestamp. -/
def recordRequest (now : Int) (t : RateLimitTracker) : RateLimitTracker :=
  { t with requests := t.requests ++ [now] }

/-- One pass of the request interceptor's rate-limit guard
(ChatbotClient.js lines 51-54): check, and record only when the check
succeeds (when it fails the interceptor throws, skipping `recordRequest`). -/
def checkThenRecord (t : RateLimitTracker) (now : Int) : RateLimitTracker :=
  let r := canMakeRequest now t
  if r.1 then recordRequest now r.2 else r.2

/-! ### ChatbotClient.js — the pre-network phase of `sendMessage`

`sendMessage` validates its input, and only then calls
`chatbotClient.post`, whose request interceptor runs the rate-limit
guard before any network traffic.  `networkCalls` counts how many
network requests this phase has started (0 when a throw happens first). -/

inductive PreSendOutcome where
  | rejectedClient (e : ValidationErr)
  | rejectedRateLimit
  | sent
deriving DecidableEq

structure PreSendResult where
  outcome : PreSendOutcome
  tracker : RateLimitTracker
  networkCalls : Nat
deriving DecidableEq

/-- The client-side phase of `chatbotAPI.sendMessage` up to the point
where a network request would leave the machine: validation throws
(`INVALID_INPUT` / `MESSAGE_TOO_LONG`), then the request interceptor
either throws its local rate-limit `Error` or records the request and
lets the request go out. -/
def sendMessagePre (content : JSValue) (now : Int) (t : RateLimitTracker) : PreSendResult :=
  match validateContent content with
  | some e => ⟨.rejectedClient e, t, 0⟩
  | none =>
    let r := canMakeRequest now t
    if r.1 then ⟨.sent, recordRequest now r.2, 1⟩
    else ⟨.rejectedRateLimit, r.2, 0⟩

/-! ### ChatbotClient.js — retry configuration and interceptor -/

/-- `RETRY_CONFIG` from the source. -/
structure RetryConfig where
  maxRetries : Nat
  retryDelay : Nat
  backoffMultiplier : Nat
deriving DecidableEq

def RETRY_CONFIG : RetryConfig := { maxRetries := 3, retryDelay := 1000, backoffMultiplier := 2 }

/-- An axios failure as the interceptor sees it: `error.response?.status`
(`none` when no response arrived) and whether
`error.code === 'ECONNABORTED'` (axios timeout). -/
structure AxiosErr where
  status : Option Nat
  econnaborted : Bool
deriving DecidableEq

/-- `shouldRetry(error)` (ChatbotClient.js lines 142-151): 4xx other
than 429 is never retried; otherwise retry when there is no response,
the request timed out, or the status is 5xx. -/
def shouldRetry (e : AxiosErr) : Bool :=
  match e.status with
  | some s =>
    if 400 ≤ s ∧ s < 500 ∧ s ≠ 429 then false
    else e.econnaborted || decide (500 ≤ s)
  | none => true

/-- What the response interceptor's error handler does with one failure. -/
inductive InterceptStep where
  | retryAfter (delay : Nat)
  | throwTyped (code : ErrCode)
  | rethrow (e : AxiosErr)
deriving DecidableEq

/-- The response interceptor's error handler (ChatbotClient.js lines
73-129) for a request whose `_retryCount` is `retryCount` (0 on the
first failure): 401 is rethrown, 429 / 422 become typed `ChatbotError`s,
and a retriable failure inside the budget schedules a retry after
`retryDelay * backoffMultiplier ^ retryCount` ms (the source increments
`_retryCount` first and uses `_retryCount - 1` as the exponent). -/
def interceptError (cfg : RetryConfig) (retryCount : Nat) (e : AxiosErr) : InterceptStep :=
  if e.status = some 401 then .rethrow e
  else if e.status = some 429 then .throwTyped .rateLimited
  else if e.status = some 422 then .throwTyped .validationError
  else if shouldRetry e ∧ retryCount < cfg.maxRetries then
    .retryAfter (cfg.retryDelay * cfg.backoffMultiplier ^ retryCount)
  else .rethrow e

/-- Outcome of one issued HTTP request, from the transport's viewpoint. -/
inductive ReqOutcome where
  | ok
  | httpErr (status : Nat)
  | timedOut
  | netErr
deriving DecidableEq

/-- The axios error produced by a failed request. -/
def ReqOutcome.toAxiosErr : ReqOutcome → AxiosErr
  | .httpErr s => ⟨some s, false⟩
  | .timedOut => ⟨none, true⟩
  | _ => ⟨none, false⟩

/-- Final result of the interceptor-driven request loop. -/
inductive TransportResult where
  | success
  | failure (e : AxiosErr)
  | typedFailure (code : ErrCode)
  | traceExhausted
deriving DecidableEq

/-- Statistics of one run of the request loop: how many requests were
issued, the retry delays in order, and the final result.
`traceExhausted` means the loop was about to issue yet another request
beyond the supplied trace. -/
structure RunStats where
  requestsIssued : Nat
  delays : List Nat
  result : TransportResult
deriving DecidableEq

/-- The request/retry loop induced by the response interceptor: the
`k`-th element of `trace` is the outcome of the `k`-th request actually
issued.  Retrying re-issues `originalRequest` with its incremented
`_retryCount` (ChatbotClient.js lines 114-126). -/
def runFrom (cfg : RetryConfig) (retryCount : Nat) : List ReqOutcome → RunStats
  | [] => ⟨0, [], .traceExhausted⟩
  | .ok :: _ => ⟨1, [], .success⟩
  | o :: rest =>
    match interceptError cfg retryCount o.toAxiosErr with
    | .retryAfter d =>
      let r := runFrom cfg (retryCount + 1) rest
      ⟨r.requestsIssued + 1, d :: r.delays, r.result⟩
    | .throwTyped c => ⟨1, [], .typedFailure c⟩
    | .rethrow e => ⟨1, [], .failure e⟩

/-- The `catch` block of `chatbotAPI.sendMessage` (ChatbotClient.js
lines 223-283) classifying a raw axios error that escaped the
interceptor: 401 → UNAUTHORIZED, 422 → VALIDATION_ERROR,
429 → RATE_LIMITED, 5xx → SERVICE_ERROR, ECONNABORTED → TIMEOUT,
no response → NETWORK_ERROR, otherwise UNKNOWN_ERROR. -/
def classifyAxios (e : AxiosErr) : ErrCode :=
  if e.status = some 401 then .unauthorized
  else if e.status = some 422 then .validationError
  else if e.status = some 429 then .rateLimited
  else
    match e.status with
    | some s =>
      if 500 ≤ s then .serviceError
      else if e.econnaborted then .timeoutErr
      else .unknownError
    | none => if e.econnaborted then .timeoutErr else .networkError

/-- The `ChatbotError` code the caller of `sendMessage` finally
observes for a failed run (typed interceptor errors pass through the
`instanceof ChatbotError` guard unchanged; raw axios errors are
classified by the catch block). -/
def finalSendError (r : RunStats) : Option ErrCode :=
  match r.result with
  | .failure e => some (classifyAxios e)
  | .typedFailure c => some c
  | _ => none

/-! ### ChatContext.jsx — data model -/

/-- `MESSAGE_TYPES` from ChatContext.jsx. -/
inductive MessageType where
  | user
  | assistant
  | system
  | error
deriving DecidableEq

/-- A message object as the reducer handles it.  `tempId` is the extra
field carried by the reconciled user message in the
`SEND_MESSAGE_SUCCESS` payload (absent — `none` — on other messages);
`isTemporary` is the optimistic-message flag (a missing field is falsy
in JS, modelled as `false`). -/
structure ChatMessage where
  id : String
  tempId : Option String
  type : MessageType
  content : String
  timestamp : String
  isTemporary : Bool
  intent : Option String
  conversationId : Option String
deriving DecidableEq

/-- A conversation entry as the client caches it (snake_case field
names as on the wire and in the source). -/
structure Conversation where
  id : String
  title : String
  status : String
  created_at : String
  updated_at : String
  message_count : Nat
  last_message : String
deriving DecidableEq

/-- The rate-limit snapshot held in chat state. -/
structure RateLimitInfo where
  remaining : Nat
  resetTime : Int
  maxPerMinute : Nat
deriving DecidableEq

/-- The `lastError` record built by `SEND_MESSAGE_FAILURE`. -/
structure LastError where
  etype : String
  message : String
  timestamp : String
  details : String
deriving DecidableEq

/-- The chat state held by the reducer (ChatContext.jsx `initialState`
shape).  `activeConversation` is `null` or a conversation id; `error`
is `null` or a user-facing message. -/
structure ChatState where
  activeConversation : Option String
  messages : List ChatMessage
  conversations : List Conversation
  inputValue : String
  isTyping : Bool
  isSending : Bool
  serviceStatus : String
  lastHealthCheck : Option String
  rateLimitInfo : RateLimitInfo
  error : Option String
  lastError : Option LastError
deriving DecidableEq

/-- `initialState` from ChatContext.jsx; `now` is the `Date.now()`
read used for `resetTime`. -/
def initialState (now : Int) : ChatState :=
  { activeConversation := none
    messages := []
    conversations := []
    inputValue := ""
    isTyping := false
    isSending := false
    serviceStatus := "unknown"
    lastHealthCheck := none
    rateLimitInfo := { remaining := 100, resetTime := now + 60000, maxPerMinute := 100 }
    error := none
    lastError := none }

/-- The actions dispatched to `chatReducer`.  `unhandled` stands for
any action object whose `type` string is none of the `CHAT_ACTIONS`
values, hitting the `default` branch of the switch. -/
inductive ChatAction where
  | sendMessageStart (tempId : String) (content : String)
  | sendMessageSuccess (userMessage : ChatMessage) (assistantMessage : ChatMessage)
      (conversationId : Option String)
  | sendMessageFailure (etype : String) (emsg : String) (details : String)
  | setActiveConversation (conversationId : Option String) (msgs : Option (List ChatMessage))
  | loadConversations (convs : List Conversation)
  | createConversation (conv : Conversation)
  | deleteConversation (cid : String)
  | setInputValue (v : String)
  | setTypingIndicator (b : Bool)
  | clearErrors
  | setServiceStatus (status : String) (timestamp : Option String)
  | updateRateLimit (info : RateLimitInfo)
  | unhandled (tag : String)
deriving DecidableEq

/-- `chatReducer` (ChatContext.jsx lines 89-211).  `now` is the ISO
string the source obtains from `new Date().toISOString()` inside the
branches that stamp times; it is threaded explicitly so the function is
pure. -/
def chatReducer (now : String) (state : ChatState) (action : ChatAction) : ChatState :=
  match action with
  | .sendMessageStart tempId content =>
    { state with
      isSending := true
      error := none
      messages := state.messages ++
        [{ id := tempId, tempId := none, type := .user, content := content,
           timestamp := now, isTemporary := true, intent := none, conversationId := none }] }
  | .sendMessageSuccess userMessage assistantMessage conversationId =>
    { state with
      isSending := false
      isTyping := false
      inputValue := ""
      activeConversation := conversationId
      messages :=
        state.messages.filter (fun msg => some msg.id != userMessage.tempId) ++
          [{ userMessage with isTemporary := false }, assistantMessage] }
  | .sendMessageFailure etype emsg details =>
    { state with
      isSending := false
      isTyping := false
      error := some emsg
      lastError := some { etype := etype, message := emsg, timestamp := now, details := details }
      messages := state.messages.filter (fun msg => !msg.isTemporary) }
  | .setActiveConversation conversationId msgs =>
    { state with
      activeConversation := conversationId
      messages := msgs.getD [] }
  | .loadConversations convs => { state with conversations := convs }
  | .createConversation conv =>
    { state with
      conversations := conv :: state.conversations
      activeConversation := some conv.id
      messages := [] }
  | .deleteConversation cid =>
    let base := { state with conversations := state.conversations.filter (fun c => c.id != cid) }
    if state.activeConversation = some cid then
      { base with activeConversation := none, messages := [] }
    else base
  | .setInputValue v => { state with inputValue := v }
  | .setTypingIndicator b => { state with isTyping := b }
  | .clearErrors => { state with error := none, lastError := none }
  | .setServiceStatus status timestamp =>
    { state with serviceStatus := status, lastHealthCheck := some (timestamp.getD now) }
  | .updateRateLimit info => { state with rateLimitInfo := info }
  | .unhandled _ => state

/-! ### ChatContext.jsx — service-status polling -/

/-- Outcome of the `GET /chat/status` poll. -/
inductive PollOutcome where
  | ok
  | httpErr (status : Nat)
  | netErr
deriving DecidableEq

/-- The `{ success, ... }` result object of `chatbotAPI.getStatus`. -/
structure StatusResult where
  success : Bool
deriving DecidableEq

/-- `chatbotAPI.getStatus` (ChatbotClient.js lines 299-315): the whole
body is wrapped in try/catch and the catch returns a
`{ success: false, ... }` object, so the function never throws —
modelled as an `Except` that is always `.ok`. -/
def getStatus : PollOutcome → Except String StatusResult
  | .ok => .ok { success := true }
  | .httpErr _ => .ok { success := false }
  | .netErr => .ok { success := false }

/-- `checkServiceStatus` inside `ChatProvider` (ChatContext.jsx lines
224-244): dispatch `healthy` when `result.success`, `degraded`
otherwise; the surrounding catch (dispatching `down`) only runs if
`getStatus` itself throws. -/
def checkServiceStatus (now : String) (r : PollOutcome) (state : ChatState) : ChatState :=
  match getStatus r with
  | .ok result =>
    chatReducer now state
      (.setServiceStatus (if result.success then "healthy" else "degraded") (some now))
  | .error _ =>
    chatReducer now state (.setServiceStatus "down" (some now))

/-! ### ChatContext.jsx — the success path of `sendMessage` -/

/-- JS truthiness of a nullable string (`null`, `undefined` and `''`
are falsy). -/
def jsTruthyOptStr : Option String → Bool
  | none => false
  | some s => !jsIsEmpty s

/-- The fields of `response.data` that the context's `sendMessage`
consumes after a successful transport call. -/
structure SendResponseData where
  reply : String
  conversationId : Option String
  messageId : Option String
  respIntent : Option String
  timestampIso : Option String
deriving DecidableEq

/-- The success path of `sendMessage` in ChatContext.jsx (lines
281-350) as a state transformer: dispatch `SEND_MESSAGE_START` with the
optimistic message, then `SEND_MESSAGE_SUCCESS` with the reconciled
user message and the assistant message, and — when the closure's
`state.activeConversation` was falsy and the server returned a truthy
conversation id — dispatch `LOAD_CONVERSATIONS` with a new conversation
entry prepended to the closure's `state.conversations`.
`tempId` / `msgId` / `genId` are the ids produced by `generateTempId` /
`generateMessageId`; `now` is the ISO clock reading. -/
def sendFlowSuccess (now : String) (st0 : ChatState) (content : String)
    (tempId msgId genId : String) (intent : String) (resp : SendResponseData) : ChatState :=
  let trimmed := jsTrimStr content
  let st1 := chatReducer now st0 (.sendMessageStart tempId trimmed)
  let userMessage : ChatMessage :=
    { id := msgId, tempId := some tempId, type := .user, content := trimmed,
      timestamp := now, isTemporary := false, intent := some intent,
      conversationId := resp.conversationId }
  let assistantMessage : ChatMessage :=
    { id := resp.messageId.getD genId, tempId := none, type := .assistant,
      content := resp.reply, timestamp := resp.timestampIso.getD now,
      isTemporary := false, intent := resp.respIntent,
      conversationId := resp.conversationId }
  let st2 := chatReducer now st1 (.sendMessageSuccess userMessage assistantMessage resp.conversationId)
  if !(jsTruthyOptStr st0.activeConversation) && jsTruthyOptStr resp.conversationId then
    let newConversation : Conversation :=
      { id := resp.conversationId.getD ""
        title := jsSlice content 50 ++ (if jsLength content > 50 then "..." else "")
        status := "active"
        created_at := now
        updated_at := now
        message_count := 2
        last_message := jsSlice content 100 ++ (if jsLength content > 100 then "..." else "") }
    chatReducer now st2 (.loadConversations (newConversation :: st0.conversations))
  else st2

/-! ### Theorems -/

/-- C10: for every chat state and every action whose `type` string is
not one of the handled `CHAT_ACTIONS` values, `chatReducer` hits its
`default` branch and returns the state unchanged.  The reducer is a
total pure function by construction of the embedding (the source's only
effect, the `new Date().toISOString()` clock reads, is threaded in as
the explicit `now` argument). -/
theorem c10_reducer_default (now : String) (st : ChatState) (tag : String) :
    chatReducer now st (.unhandled tag) = st := rfl

/-- C1 counterexample: three consecutive 503 responses do NOT exhaust
the retry budget (`maxRetries = 3` allows three retries after the
initial request).  After the third consecutive 503 the interceptor
(at `_retryCount = 2`) schedules yet another automatic retry, and a run
against four consecutive 503s issues four requests, not three. -/
theorem c1_counterexample :
    interceptError RETRY_CONFIG 2 { status := some 503, econnaborted := false }
        = .retryAfter 4000
    ∧ (runFrom RETRY_CONFIG 0
        [.httpErr 503, .httpErr 503, .httpErr 503, .httpErr 503]).requestsIssued = 4
    ∧ (runFrom RETRY_CONFIG 0
        [.httpErr 503, .httpErr 503, .httpErr 503, .httpErr 503]).requestsIssued ≠ 3 := by
  refine ⟨rfl, rfl, ?_⟩
  decide

/-- C1 (amended): the retry budget is exceeded after FOUR consecutive
503 responses: the initial request plus `maxRetries = 3` automatic
retries (with delays 1000, 2000, 4000 ms) are issued — exactly four
requests — after which the raw 503 error is rethrown regardless of
anything later in the trace, and `sendMessage`'s catch block surfaces
it to the caller as a `SERVICE_ERROR`. -/
theorem c1_amended (rest : List ReqOutcome) :
    runFrom RETRY_CONFIG 0
        (.httpErr 503 :: .httpErr 503 :: .httpErr 503 :: .httpErr 503 :: rest)
      = ⟨4, [1000, 2000, 4000], .failure { status := some 503, econnaborted := false }⟩
    ∧ finalSendError (runFrom RETRY_CONFIG 0
        (.httpErr 503 :: .httpErr 503 :: .httpErr 503 :: .httpErr 503 :: rest))
      = some .serviceError := ⟨rfl, rfl⟩

/-- C4 counterexample: when the background `GET /chat/status` poll
fails (here: a network error), `checkServiceStatus` stores `"degraded"`
in the chat state, not `"down"` as the claim states: `getStatus`
catches its own failure and returns `{ success: false }`, so the
`catch` branch of `checkServiceStatus` that would dispatch `"down"`
never runs. -/
theorem c4_counterexample :
    (checkServiceStatus "2026-01-01T00:00:00Z" .netErr (initialState 0)).serviceStatus
        = "degraded"
    ∧ (checkServiceStatus "2026-01-01T00:00:00Z" .netErr (initialState 0)).serviceStatus
        ≠ "down" := by
  refine ⟨rfl, ?_⟩
  decide

/-- C4 (amended): whenever the background service-health poll fails
(any non-success outcome, HTTP error or network failure), the failure
is not surfaced as an error — the `error` field and the message list
are untouched — and the service status stored in chat state is set to
`"degraded"` (not `"down"`: `getStatus` catches its own failures and
returns a result object, so `checkServiceStatus`'s `"down"` fallback
branch is unreachable). -/
theorem c4_amended (now : String) (r : PollOutcome) (st : ChatState) (h : r ≠ .ok) :
    (checkServiceStatus now r st).serviceStatus = "degraded"
    ∧ (checkServiceStatus now r st).error = st.error
    ∧ (checkServiceStatus now r st).messages = st.messages := by
  cases r with
  | ok => exact absurd rfl h
  | httpErr s => exact ⟨rfl, rfl, rfl⟩
  | netErr => exact ⟨rfl, rfl, rfl⟩

/-- C4 witness: the amended claim evaluated at a concrete failing poll
on the initial state. -/
theorem c4_amended_witness :
    (checkServiceStatus "t0" .netErr (initialState 0)).serviceStatus = "degraded"
    ∧ (checkServiceStatus "t0" .netErr (initialState 0)).error = (initialState 0).error :=
  ⟨(c4_amended "t0" .netErr (initialState 0) (by decide)).1,
   (c4_amended "t0" .netErr (initialState 0) (by decide)).2.1⟩

/-- C6: applying `SEND_MESSAGE_FAILURE` to any chat state removes the
temporary (optimistic) messages from the message list and nothing else:
the result is the previous list filtered to its non-temporary entries
(a sublist of the previous list, so in particular no assistant message
is appended), `isSending` is cleared, and the `error` field is set.
When the previous list was a prefix of settled messages followed by the
one optimistic temporary message, the result is exactly that prefix. -/
theorem c6_send_failure (now : String) (st : ChatState) (etype emsg details : String) :
    (chatReducer now st (.sendMessageFailure etype emsg details)).messages
        = st.messages.filter (fun m => !m.isTemporary)
    ∧ (chatReducer now st (.sendMessageFailure etype emsg details)).isSending = false
    ∧ (chatReducer now st (.sendMessageFailure etype emsg details)).error = some emsg
    ∧ List.Sublist (chatReducer now st (.sendMessageFailure etype emsg details)).messages
        st.messages
    ∧ ∀ (rest : List ChatMessage) (tmp : ChatMessage),
        st.messages = rest ++ [tmp] → tmp.isTemporary = true →
        (∀ x ∈ rest, x.isTemporary = false) →
        (chatReducer now st (.sendMessageFailure etype emsg details)).messages = rest := by
  refine ⟨rfl, rfl, rfl, ?_, ?_⟩
  · exact List.filter_sublist st.messages
  · intro rest tmp hsp htmp hrest
    show st.messages.filter (fun m => !m.isTemporary) = rest
    rw [hsp, List.filter_append]
    have h1 : rest.filter (fun m => !m.isTemporary) = rest :=
      List.filter_eq_self.mpr (fun a ha => by rw [hrest a ha]; rfl)
    have h2 : [tmp].filter (fun m => !m.isTemporary) = [] := by
      simp [List.filter_cons, htmp]
    rw [h1, h2, List.append_nil]

/-- C6 witness: the failure transition on a concrete state holding one
settled user message followed by one optimistic temporary message drops
exactly the temporary one. -/
theorem c6_send_failure_witness :
    (chatReducer "t1"
        { initialState 0 with
          isSending := true
          messages :=
            [{ id := "m1", tempId := none, type := .user, content := "hi",
               timestamp := "t0", isTemporary := false, intent := none,
               conversationId := none },
             { id := "temp_1", tempId := none, type := .user, content := "again",
               timestamp := "t0", isTemporary := true, intent := none,
               conversationId := none }] }
        (.sendMessageFailure "SERVICE_ERROR" "The chat service is temporarily unavailable." "")).messages
      = [{ id := "m1", tempId := none, type := .user, content := "hi",
           timestamp := "t0", isTemporary := false, intent := none,
           conversationId := none }] := by
  have h := (c6_send_failure "t1"
      { initialState 0 with
        isSending := true
        messages :=
          [{ id := "m1", tempId := none, type := .user, content := "hi",
             timestamp := "t0", isTemporary := false, intent := none,
             conversationId := none },
           { id := "temp_1", tempId := none, type := .user, content := "again",
             timestamp := "t0", isTemporary := true, intent := none,
             conversationId := none }] }
      "SERVICE_ERROR" "The chat service is temporarily unavailable." "").2.2.2.2
  exact h
    [{ id := "m1", tempId := none, type := .user, content := "hi",
       timestamp := "t0", isTemporary := false, intent := none, conversationId := none }]
    { id := "temp_1", tempId := none, type := .user, content := "again",
      timestamp := "t0", isTemporary := true, intent := none, conversationId := none }
    rfl rfl (by decide)

/-- A 4xx status other than 429 never leads the interceptor to
schedule a retry (helper for the retry-policy claim). -/
theorem interceptError_no_retry_4xx (cfg : RetryConfig) (s rc : Nat) (b : Bool) (d : Nat)
    (h1 : 400 ≤ s) (h2 : s < 500) (h3 : s ≠ 429) :
    interceptError cfg rc { status := some s, econnaborted := b } ≠ .retryAfter d := by
  have hsr : shouldRetry { status := some s, econnaborted := b } = false := by
    simp only [shouldRetry]
    rw [if_pos ⟨h1, h2, h3⟩]
  intro hcontra
  simp only [interceptError, hsr] at hcontra
  split_ifs at hcontra
  simp_all

/-- A failure with no response (network error or timeout) or with a
5xx status is retried whenever the retry count is still below the
budget, with delay `retryDelay * backoffMultiplier ^ retryCount`
(helper for the retry-policy claim). -/
theorem interceptError_retry_retriable (cfg : RetryConfig) (rc : Nat) (e : AxiosErr)
    (h : e.status = none ∨ ∃ s, e.status = some s ∧ 500 ≤ s) (hrc : rc < cfg.maxRetries) :
    interceptError cfg rc e = .retryAfter (cfg.retryDelay * cfg.backoffMultiplier ^ rc) := by
  have hsr : shouldRetry e = true := by
    rcases h with h | ⟨s, hs, h5⟩
    · simp [shouldRetry, h]
    · simp only [shouldRetry, hs]
      rw [if_neg (by rintro ⟨-, hlt, -⟩; omega)]
      simp [h5]
  have hne : ∀ k : Nat, k < 500 → e.status ≠ some k := by
    intro k hk hcontra
    rcases h with h | ⟨s, hs, h5⟩
    · rw [h] at hcontra; exact Option.noConfusion hcontra
    · rw [hs] at hcontra
      have := Option.some.inj hcontra
      omega
  simp only [interceptError,
    if_neg (hne 401 (by omega)), if_neg (hne 429 (by omega)), if_neg (hne 422 (by omega))]
  rw [if_pos ⟨hsr, hrc⟩]

/-- The interceptor never schedules a retry once the retry count has
reached the budget (helper for the retry-policy claim). -/
theorem interceptError_retry_lt (cfg : RetryConfig) (rc : Nat) (e : AxiosErr) (d : Nat)
    (h : interceptError cfg rc e = .retryAfter d) : rc < cfg.maxRetries := by
  simp only [interceptError] at h
  split_ifs at h with h1 h2 h3 h4
  exact h4.2

/-- Any run of the request loop performs at most
`maxRetries - retryCount` further retries (helper). -/
theorem runFrom_delays_length_le (cfg : RetryConfig) :
    ∀ (trace : List ReqOutcome) (rc : Nat),
      (runFrom cfg rc trace).delays.length ≤ cfg.maxRetries - rc := by
  intro trace
  induction trace with
  | nil => intro rc; simp [runFrom]
  | cons o rest ih =>
    intro rc
    cases o with
    | ok => simp [runFrom]
    | httpErr s =>
      simp only [runFrom]
      cases h : interceptError cfg rc (ReqOutcome.toAxiosErr (.httpErr s)) with
      | retryAfter d =>
        have hlt := interceptError_retry_lt cfg rc _ d h
        have := ih (rc + 1)
        simp only [List.length_cons]
        omega
      | throwTyped c => simp
      | rethrow e => simp
    | timedOut =>
      simp only [runFrom]
      cases h : interceptError cfg rc (ReqOutcome.toAxiosErr .timedOut) with
      | retryAfter d =>
        have hlt := interceptError_retry_lt cfg rc _ d h
        have := ih (rc + 1)
        simp only [List.length_cons]
        omega
      | throwTyped c => simp
      | rethrow e => simp
    | netErr =>
      simp only [runFrom]
      cases h : interceptError cfg rc (ReqOutcome.toAxiosErr .netErr) with
      | retryAfter d =>
        have hlt := interceptError_retry_lt cfg rc _ d h
        have := ih (rc + 1)
        simp only [List.length_cons]
        omega
      | throwTyped c => simp
      | rethrow e => simp

/-- C3: the retry policy of the response interceptor under the source
configuration (`maxRetries = 3`, `retryDelay = 1000`,
`backoffMultiplier = 2`):
(i) a failed request whose status is 4xx and not 429 is never retried;
(ii) a failure with no response (network error / timeout) or a 5xx
response is retried while fewer than 3 retries have happened, and the
retry performed at retry count `rc` (the `(rc+1)`-th retry) waits
`1000 * 2 ^ rc` ms — so the first retry waits exactly the base delay of
1000 ms;
(iii) a retry is only ever scheduled when the retry count is below 3,
and consequently (iv) no run of the request loop ever performs more
than 3 retries. -/
theorem c3_retry_policy :
    (∀ (s rc : Nat) (b : Bool) (d : Nat), 400 ≤ s → s < 500 → s ≠ 429 →
        interceptError RETRY_CONFIG rc { status := some s, econnaborted := b }
          ≠ .retryAfter d)
    ∧ (∀ (e : AxiosErr) (rc : Nat),
        (e.status = none ∨ ∃ s, e.status = some s ∧ 500 ≤ s) → rc < 3 →
        interceptError RETRY_CONFIG rc e = .retryAfter (1000 * 2 ^ rc))
    ∧ (∀ (e : AxiosErr) (rc : Nat) (d : Nat),
        interceptError RETRY_CONFIG rc e = .retryAfter d → rc < 3)
    ∧ (∀ (trace : List ReqOutcome) (rc : Nat),
        (runFrom RETRY_CONFIG rc trace).delays.length ≤ 3 - rc) := by
  refine ⟨?_, ?_, ?_, ?_⟩
  · intro s rc b d h1 h2 h3
    exact interceptError_no_retry_4xx RETRY_CONFIG s rc b d h1 h2 h3
  · intro e rc h hrc
    exact interceptError_retry_retriable RETRY_CONFIG rc e h hrc
  · intro e rc d h
    exact interceptError_retry_lt RETRY_CONFIG rc e d h
  · exact fun trace rc => runFrom_delays_length_le RETRY_CONFIG trace rc

/-- C3 witness: a first failure with status 500 at retry count 0 is
retried after exactly the base delay of 1000 ms, and a 404 at retry
count 0 is not retried. -/
theorem c3_retry_policy_witness :
    interceptError RETRY_CONFIG 0 { status := some 500, econnaborted := false }
        = .retryAfter 1000
    ∧ interceptError RETRY_CONFIG 0 { status := some 404, econnaborted := false }
        ≠ .retryAfter 1000 := by
  constructor
  · have h := c3_retry_policy.2.1 { status := some 500, econnaborted := false } 0
      (Or.inr ⟨500, rfl, by decide⟩) (by decide)
    simpa using h
  · exact c3_retry_policy.1 404 0 false 1000 (by decide) (by decide) (by decide)

/-- C2: when the recorded request timestamps within the trailing
60-second window number exactly the per-minute ceiling (100), the next
`sendMessage` attempt with valid content is rejected by the request
interceptor's local rate-limit guard and starts no network call; and
for any tracker all of whose recorded timestamps have fallen out of the
trailing 60-second window at a later instant, `canMakeRequest` accepts
again. -/
theorem c2_rate_window (reqs : List Int) (now : Int) (s : String)
    (hfull : (pruneWindow now reqs).length = 100)
    (hvalid : validateContent (.jstr s) = none) :
    (sendMessagePre (.jstr s) now { requests := reqs, maxPerMinute := 100 }).outcome
        = .rejectedRateLimit
    ∧ (sendMessagePre (.jstr s) now { requests := reqs, maxPerMinute := 100 }).networkCalls = 0
    ∧ ∀ (reqs2 : List Int) (later : Int),
        (∀ ts ∈ reqs2, ts + 60000 ≤ later) →
        (canMakeRequest later { requests := reqs2, maxPerMinute := 100 }).1 = true := by
  refine ⟨?_, ?_, ?_⟩
  · simp [sendMessagePre, hvalid, canMakeRequest, hfull]
  · simp [sendMessagePre, hvalid, canMakeRequest, hfull]
  · intro reqs2 later hall
    have hnil : pruneWindow later reqs2 = [] := by
      rw [pruneWindow, List.filter_eq_nil_iff]
      intro a ha
      have := hall a ha
      simp only [decide_eq_true_eq]
      omega
    simp [canMakeRequest, hnil]

/-- C2 witness: a tracker holding 100 timestamps inside the window
rejects a concrete valid send without a network call, and a tracker
whose lone timestamp is a full minute old accepts again. -/
theorem c2_rate_window_witness :
    (sendMessagePre (.jstr "hello") 0
        { requests := List.replicate 100 0, maxPerMinute := 100 }).outcome
        = .rejectedRateLimit
    ∧ (sendMessagePre (.jstr "hello") 0
        { requests := List.replicate 100 0, maxPerMinute := 100 }).networkCalls = 0
    ∧ (canMakeRequest 60001 { requests := [0], maxPerMinute := 100 }).1 = true := by
  have hfull : (pruneWindow 0 (List.replicate 100 (0 : Int))).length = 100 := by
    have heq : pruneWindow 0 (List.replicate 100 (0 : Int)) = List.replicate 100 0 :=
      List.filter_eq_self.mpr (fun a ha => by rw [List.eq_of_mem_replicate ha]; decide)
    rw [heq, List.length_replicate]
  have h := c2_rate_window (List.replicate 100 0) 0 "hello" hfull (by decide)
  exact ⟨h.1, h.2.1, h.2.2 [0] 60001 (by intro ts hts; simp at hts; omega)⟩

/-- Pruning never raises `maxPerMinute` or the list beyond its prior
length; one guarded check-then-record step preserves the bound
`|requests| ≤ maxPerMinute` (helper for the window invariant). -/
theorem checkThenRecord_length_le (t : RateLimitTracker) (now : Int)
    (h : t.requests.length ≤ t.maxPerMinute) :
    (checkThenRecord t now).requests.length ≤ t.maxPerMinute := by
  have hp : (pruneWindow now t.requests).length ≤ t.requests.length :=
    List.length_filter_le _ _
  simp only [checkThenRecord, canMakeRequest]
  split
  next hc =>
    simp only [recordRequest, List.length_append, List.length_cons, List.length_nil]
    have := of_decide_eq_true hc
    omega
  next hc => exact le_trans hp h

/-- A check-then-record step never changes the ceiling (helper). -/
theorem checkThenRecord_maxPerMinute (t : RateLimitTracker) (now : Int) :
    (checkThenRecord t now).maxPerMinute = t.maxPerMinute := by
  simp only [checkThenRecord, canMakeRequest]
  split
  · rfl
  · rfl

/-- The bound `|requests| ≤ maxPerMinute` is an inductive invariant of
arbitrary sequences of guarded check-then-record steps (helper). -/
theorem foldl_checkThenRecord_inv (times : List Int) :
    ∀ (t : RateLimitTracker), t.requests.length ≤ t.maxPerMinute →
      (times.foldl checkThenRecord t).requests.length
          ≤ (times.foldl checkThenRecord t).maxPerMinute
      ∧ (times.foldl checkThenRecord t).maxPerMinute = t.maxPerMinute := by
  induction times with
  | nil => exact fun t h => ⟨h, rfl⟩
  | cons a rest ih =>
    intro t h
    have h1 := checkThenRecord_length_le t a h
    have h2 := checkThenRecord_maxPerMinute t a
    have h3 := ih (checkThenRecord t a) (by rw [h2]; exact h1)
    simp only [List.foldl_cons]
    exact ⟨h3.1, by rw [h3.2, h2]⟩

/-- C7: after any sequence of check-then-record operations starting
from the source's initial tracker — where a request is recorded only
when the availability check succeeds, exactly as the request
interceptor does — the number of stored timestamps lying in the
trailing 60-second window of any observation instant never exceeds the
configured per-minute ceiling (100). -/
theorem c7_rate_window_invariant (times : List Int) (observedAt : Int) :
    (pruneWindow observedAt
        ((times.foldl checkThenRecord rateLimitTrackerInit).requests)).length
      ≤ rateLimitTrackerInit.maxPerMinute := by
  have h := foldl_checkThenRecord_inv times rateLimitTrackerInit
    (by simp [rateLimitTrackerInit])
  have hp : (pruneWindow observedAt
        ((times.foldl checkThenRecord rateLimitTrackerInit).requests)).length
      ≤ ((times.foldl checkThenRecord rateLimitTrackerInit).requests).length :=
    List.length_filter_le _ _
  have := h.1
  rw [h.2] at this
  exact le_trans hp this

/-- Trimming a string of whitespace characters yields the empty list
(helper). -/
theorem jsTrim_all_whitespace (l : List Char) (h : ∀ c ∈ l, jsWhitespace c = true) :
    jsTrim l = [] := by
  have h1 : l.dropWhile jsWhitespace = [] := by
    rw [List.dropWhile_eq_nil_iff]
    exact fun x hx => h x hx
  rw [jsTrim, h1]
  rfl

/-- `dropWhile` is the identity on a list whose members all fail the
predicate (helper). -/
theorem dropWhile_eq_self_of_all_false (p : Char → Bool) (l : List Char)
    (h : ∀ x ∈ l, p x = false) : l.dropWhile p = l := by
  cases l with
  | nil => rfl
  | cons a t =>
    simp only [List.dropWhile_cons, h a (by simp)]
    rfl

/-- Trimming a constant non-whitespace string changes nothing (helper). -/
theorem jsTrim_replicate_nonws (n : Nat) (c : Char) (h : jsWhitespace c = false) :
    jsTrim (List.replicate n c) = List.replicate n c := by
  have hmem : ∀ x ∈ List.replicate n c, jsWhitespace x = false := by
    intro x hx
    rw [List.eq_of_mem_replicate hx]
    exact h
  have h1 := dropWhile_eq_self_of_all_false jsWhitespace (List.replicate n c) hmem
  have h2 : (List.replicate n c).reverse = List.replicate n c := List.reverse_replicate n c
  rw [jsTrim, h1, h2, dropWhile_eq_self_of_all_false jsWhitespace _ hmem, h2]

/-- A 4001-character all-whitespace input (concrete counterexample
material for the length/trim check ordering). -/
def longWhitespaceStr : String := String.mk (List.replicate 4001 ' ')

/-- A 4001-character non-whitespace input. -/
def longNonWsStr : String := String.mk (List.replicate 4001 'a')

/-- C8 counterexample: a 4001-character all-whitespace string is longer
than 4000 characters, yet `sendMessage` rejects it with
`INVALID_INPUT` — the `content.trim().length === 0` check fires before
the length check — not with `MESSAGE_TOO_LONG` as the claim states. -/
theorem c8_counterexample :
    jsLength longWhitespaceStr > 4000
    ∧ (sendMessagePre (.jstr longWhitespaceStr) 0
        rateLimitTrackerInit).outcome = .rejectedClient .invalidInput
    ∧ (sendMessagePre (.jstr longWhitespaceStr) 0
        rateLimitTrackerInit).outcome ≠ .rejectedClient .tooLong := by
  have hlen : jsLength longWhitespaceStr = 4001 := by
    have h : jsLength longWhitespaceStr = (List.replicate 4001 ' ').length := rfl
    rw [h, List.length_replicate]
  have hd : longWhitespaceStr.data = List.replicate 4001 ' ' := rfl
  have hne : jsIsEmpty longWhitespaceStr = false := by
    rw [jsIsEmpty, hd, List.isEmpty_eq_false]
    intro hnil
    have hlenr := List.length_replicate 4001 ' '
    rw [hnil] at hlenr
    simp at hlenr
  have htrim : jsTrim longWhitespaceStr.data = [] := by
    rw [hd]
    exact jsTrim_all_whitespace _ (fun c hc => by rw [List.eq_of_mem_replicate hc]; rfl)
  have hv : validateContent (.jstr longWhitespaceStr) = some .invalidInput := by
    simp [validateContent, hne, htrim]
  refine ⟨by rw [hlen]; omega, ?_, ?_⟩
  · simp [sendMessagePre, hv]
  · simp [sendMessagePre, hv]

/-- C8 (amended): an input string longer than 4000 characters is
always rejected client-side with no network call; it is rejected with
`MESSAGE_TOO_LONG` exactly when its trimmed content is non-empty, and
with `INVALID_INPUT` (the earlier check) when it is whitespace-only. -/
theorem c8_amended (s : String) (now : Int) (t : RateLimitTracker)
    (hlen : jsLength s > 4000) :
    ((jsTrim s.data).length ≠ 0 →
        (sendMessagePre (.jstr s) now t).outcome = .rejectedClient .tooLong)
    ∧ ((jsTrim s.data).length = 0 →
        (sendMessagePre (.jstr s) now t).outcome = .rejectedClient .invalidInput)
    ∧ (sendMessagePre (.jstr s) now t).networkCalls = 0 := by
  have hne : jsIsEmpty s = false := by
    rw [jsIsEmpty, List.isEmpty_eq_false]
    intro hnil
    rw [jsLength, hnil] at hlen
    simp at hlen
  refine ⟨?_, ?_, ?_⟩
  · intro htrim
    have hv : validateContent (.jstr s) = some .tooLong := by
      simp [validateContent, hne, htrim, hlen]
    simp [sendMessagePre, hv]
  · intro htrim
    have hv : validateContent (.jstr s) = some .invalidInput := by
      simp [validateContent, hne, htrim]
    simp [sendMessagePre, hv]
  · by_cases htrim : (jsTrim s.data).length = 0
    · have hv : validateContent (.jstr s) = some .invalidInput := by
        simp [validateContent, hne, htrim]
      simp [sendMessagePre, hv]
    · have hv : validateContent (.jstr s) = some .tooLong := by
        simp [validateContent, hne, htrim, hlen]
      simp [sendMessagePre, hv]

/-- C8 amended-claim witness: a 4001-character non-whitespace string is
rejected with `MESSAGE_TOO_LONG`. -/
theorem c8_amended_witness :
    (sendMessagePre (.jstr longNonWsStr) 0
        rateLimitTrackerInit).outcome = .rejectedClient .tooLong := by
  have hlen : jsLength longNonWsStr > 4000 := by
    have h : jsLength longNonWsStr = (List.replicate 4001 'a').length := rfl
    rw [h, List.length_replicate]
    omega
  have htrim : (jsTrim longNonWsStr.data).length ≠ 0 := by
    have hdata : longNonWsStr.data = List.replicate 4001 'a' := rfl
    rw [hdata, jsTrim_replicate_nonws 4001 'a' (by decide), List.length_replicate]
    omega
  exact (c8_amended longNonWsStr 0 rateLimitTrackerInit hlen).1 htrim

/-- C9: an input that is the empty string, not a string at all, or a
whitespace-only string is rejected by `sendMessage` with
`INVALID_INPUT` before any network call. -/
theorem c9_invalid_input (v : JSValue) (now : Int) (t : RateLimitTracker)
    (h : v = .jstr "" ∨ (∀ s, v ≠ .jstr s) ∨ ∃ s, v = .jstr s ∧ (jsTrim s.data).length = 0) :
    (sendMessagePre v now t).outcome = .rejectedClient .invalidInput
    ∧ (sendMessagePre v now t).networkCalls = 0 := by
  have hv : validateContent v = some .invalidInput := by
    rcases h with rfl | hns | ⟨s, rfl, htrim⟩
    · rfl
    · cases v with
      | jstr s => exact absurd rfl (hns s)
      | jnull => rfl
      | jundefined => rfl
      | jnum n => rfl
      | jbool b => rfl
      | jobject => rfl
    · by_cases he : jsIsEmpty s = true
      · simp [validateContent, he]
      · simp [validateContent, he, htrim]
  simp [sendMessagePre, hv]

/-- C9 witness: a whitespace-only concrete input is rejected with
`INVALID_INPUT` and no network call. -/
theorem c9_invalid_input_witness :
    (sendMessagePre (.jstr "   ") 0 rateLimitTrackerInit).outcome
        = .rejectedClient .invalidInput
    ∧ (sendMessagePre (.jstr "   ") 0 rateLimitTrackerInit).networkCalls = 0 :=
  c9_invalid_input (.jstr "   ") 0 rateLimitTrackerInit
    (Or.inr (Or.inr ⟨"   ", rfl, by decide⟩))

/-- C5: starting from a chat state with no active conversation and an
empty message list, the success path of `sendMessage` with a
(non-empty) server-assigned conversation id yields a state whose active
conversation is that id, whose conversation list is the old list with
one new entry (carrying that id) prepended, and whose message list
holds exactly two messages — the reconciled (non-temporary) user
message with the trimmed content, followed by the assistant message
with the server's reply. -/
theorem c5_first_send (now : String) (st0 : ChatState) (content : String)
    (tempId msgId genId intent : String) (resp : SendResponseData) (cid : String)
    (hA : st0.activeConversation = none)
    (hM : st0.messages = [])
    (hC : resp.conversationId = some cid)
    (hcid : jsIsEmpty cid = false) :
    (sendFlowSuccess now st0 content tempId msgId genId intent resp).activeConversation
        = some cid
    ∧ (∃ nc : Conversation,
        (sendFlowSuccess now st0 content tempId msgId genId intent resp).conversations
            = nc :: st0.conversations
        ∧ nc.id = cid)
    ∧ (∃ um am : ChatMessage,
        (sendFlowSuccess now st0 content tempId msgId genId intent resp).messages = [um, am]
        ∧ um.type = .user ∧ um.content = jsTrimStr content ∧ um.isTemporary = false
        ∧ am.type = .assistant ∧ am.content = resp.reply) := by
  have hcond : (!jsTruthyOptStr (none : Option String) && jsTruthyOptStr (some cid)) = true := by
    simp [jsTruthyOptStr, hcid]
  simp only [sendFlowSuccess, chatReducer, hM, hC, hA, List.nil_append, List.filter_cons,
    List.filter_nil, bne_self_eq_false, Bool.false_eq_true, if_false]
  rw [hcond, if_pos rfl]
  exact ⟨rfl, ⟨_, rfl, rfl⟩, ⟨_, _, rfl, rfl, rfl, rfl, rfl, rfl⟩⟩

/-- C5 witness: a concrete first send from the initial state with a
server-assigned conversation id activates that conversation and leaves
exactly the two new messages. -/
theorem c5_first_send_witness :
    (sendFlowSuccess "t0" (initialState 0) "hello" "temp_1" "msg_1" "msg_2" "general"
        { reply := "hi there", conversationId := some "conv_1", messageId := some "am_1",
          respIntent := some "general", timestampIso := some "t1" }).activeConversation
        = some "conv_1"
    ∧ ∃ um am : ChatMessage,
        (sendFlowSuccess "t0" (initialState 0) "hello" "temp_1" "msg_1" "msg_2" "general"
            { reply := "hi there", conversationId := some "conv_1", messageId := some "am_1",
              respIntent := some "general", timestampIso := some "t1" }).messages = [um, am]
        ∧ um.type = .user ∧ am.type = .assistant := by
  have h := c5_first_send "t0" (initialState 0) "hello" "temp_1" "msg_1" "msg_2" "general"
    { reply := "hi there", conversationId := some "conv_1", messageId := some "am_1",
      respIntent := some "general", timestampIso := some "t1" } "conv_1"
    rfl rfl rfl (by decide)
  obtain ⟨um, am, hmsgs, hu, _, _, ha, _⟩ := h.2.2
  exact ⟨h.1, um, am, hmsgs, hu, ha⟩

end CodementorX
